import Mathlib

/-!
# v.profile (grass7/vector/v.profile/main.c)

Shallow embedding of the result collection, ordering and formatting code of
the vector profiling module, and the verification of its specification.

Conventions of the embedding
* a C `double` is a rational number (finite values; NaN and the infinities
  are not represented);
* a C `int` is an `Int`, a count is a `Nat`;
* a field that the code leaves unwritten is `none`;
* functions of the GRASS vector and DBMI libraries and of the C library are
  not part of this source file: they enter as parameters, or through their
  documented contract.
-/

namespace VProfile

/-! ## Result records and their comparison (main.c 39-44, 626-643) -/

/-- The record `typedef struct { double distance; int cat; double z; } Result;`.
The field `z` is written by `add_point` only when the map is read with z, so it
is `none` when it was left unwritten. -/
structure Result where
  distance : ℚ
  cat : Int
  z : Option ℚ
  deriving DecidableEq, Repr

/-- The function `compdist` (main.c 627-643), the comparison function handed to
`qsort`. -/
def compdist (r1 r2 : Result) : Int :=
  if r1.distance = r2.distance then
    if r1.cat > r2.cat then 1 else -1
  else if r1.distance > r2.distance then 1 else -1

/-- The state of the array after the C library call
`qsort(base, n, size, cmp)`: it holds the records it held before, and no record
compares greater than the record that follows it. -/
def qsort_post (cmp : Result → Result → Int) (before after : List Result) : Prop :=
  after.Perm before ∧ after.Chain' (fun a b => cmp a b ≤ 0)

instance qsort_post_decidable (cmp : Result → Result → Int) (before after : List Result) :
    Decidable (qsort_post cmp before after) :=
  inferInstanceAs (Decidable (after.Perm before ∧ after.Chain' (fun a b => cmp a b ≤ 0)))

/-- The sort step of `main` (main.c 531-532):
`qsort(&resultset[0], rescount, sizeof(Result), compdist)`. -/
def sort_step (before after : List Result) : Prop :=
  qsort_post compdist before after

instance sort_step_decidable (before after : List Result) :
    Decidable (sort_step before after) :=
  inferInstanceAs (Decidable (qsort_post compdist before after))

/-- The order the sorted result set is specified to have between a record and
its successor. -/
def dist_cat_le (a b : Result) : Prop :=
  a.distance < b.distance ∨ (a.distance = b.distance ∧ a.cat ≤ b.cat)

instance dist_cat_le_decidable (a b : Result) : Decidable (dist_cat_le a b) :=
  inferInstanceAs
    (Decidable (a.distance < b.distance ∨ (a.distance = b.distance ∧ a.cat ≤ b.cat)))

/-- A reference sort that consults only the comparison function: insertion
from the right, an element going in front of the first one it does not compare
greater than. -/
def qsort_ref (cmp : Result → Result → Int) (rs : List Result) : List Result :=
  rs.insertionSort (fun a b => cmp a b ≤ 0)

/-- The sort key of a record: distance, then category. -/
def sort_key (r : Result) : ℚ × Int := (r.distance, r.cat)

/-! ## Features, categories and the library interface -/

/-- One vertex of a `struct line_pnts`: the entries `x[i]`, `y[i]`, `z[i]`. -/
structure Pnt where
  x : ℚ
  y : ℚ
  z : ℚ
  deriving DecidableEq, Repr

/-- The vertices of a `struct line_pnts`, in order (`n_points` is the length). -/
abbrev LinePnts := List Pnt

/-- The (field, cat) pairs of a `struct line_cats`, in order. -/
abbrev LineCats := List (Int × Int)

/-- The header constant `WITHOUT_Z`. -/
def WITHOUT_Z : Int := 0

/-- The header constant `WITH_Z`. -/
def WITH_Z : Int := 1

/-- The feature type bit `GV_POINT`. -/
def GV_POINT : Nat := 1

/-- The feature type bit `GV_LINE`. -/
def GV_LINE : Nat := 2

/-- The feature type bit `GV_BOUNDARY`. -/
def GV_BOUNDARY : Nat := 4

/-- The feature type bit `GV_CENTROID`. -/
def GV_CENTROID : Nat := 8

/-- The two outputs of `Vect_line_distance` that tell a point's position
relative to a line: `dist`, the distance from the point to the line (ninth
argument), and `lpdist`, the distance along the line from its first vertex to
the nearest point of the line (eleventh and last argument). -/
structure LineDistance where
  dist : ℚ
  lpdist : ℚ
  deriving DecidableEq, Repr

/-- The functions of the GRASS vector library called by `add_point`,
`proc_point`, `proc_line` and the scan loops of `main`. They are not part of
this source file and enter the embedding as a parameter. -/
structure VectLib where
  /-- The value returned by `Vect_point_in_poly(x, y, Points)`. -/
  point_in_poly : ℚ → ℚ → LinePnts → Int
  /-- The outputs of `Vect_line_distance(points, ux, uy, uz, with_z, ...)`. -/
  line_distance : LinePnts → ℚ → ℚ → ℚ → Int → LineDistance
  /-- The value stored in `cat` by `Vect_cat_get(Cats, field, &cat)`. -/
  cat_get : LineCats → Int → Int
  /-- The value returned by `Vect_line_get_intersections(APoints, BPoints,
  IPoints, with_z)` and the points it leaves in a reset `IPoints`. -/
  line_get_intersections : LinePnts → LinePnts → Int → Int × LinePnts

/-! ## Result collection (main.c 645-697) -/

/-- The function `add_point` (main.c 645-667): the result set grows by one
record holding `dist`, the category of field 1, and `z` when `open3d` is
`WITH_Z`. Memory for the new record is taken to be available. -/
def add_point (L : VectLib) (Cats : LineCats) (dist z : ℚ) (resultset : List Result)
    (open3d : Int) : List Result :=
  resultset ++
    [{ distance := dist
       cat := L.cat_get Cats 1
       z := if open3d = WITH_Z then some z else none }]

/-- The function `proc_point` (main.c 669-681). The coordinates `*Points->x`,
`*Points->y`, `*Points->z` are those of the first vertex; with no vertex the
read has no defined value and the result is `none`. The variable `dist` is
passed to `Vect_line_distance` in the last position, `lpdist`. -/
def proc_point (L : VectLib) (Points Profil Buffer : LinePnts) (Cats : LineCats)
    (resultset : List Result) (open3d : Int) : Option (List Result) :=
  match Points with
  | [] => none
  | p :: _ =>
    if L.point_in_poly p.x p.y Buffer > 0 then
      some (add_point L Cats (L.line_distance Profil p.x p.y p.z open3d).lpdist p.z
        resultset open3d)
    else
      some resultset

/-- The function `proc_line` (main.c 683-697): one `add_point` per
intersection point, from index 0 upwards. -/
def proc_line (L : VectLib) (Ipoints Profil : LinePnts) (Cats : LineCats)
    (resultset : List Result) (open3d : Int) : List Result :=
  Ipoints.foldl
    (fun rs q =>
      add_point L Cats (L.line_distance Profil q.x q.y q.z open3d).lpdist q.z rs open3d)
    resultset

/-- The intersection step shared by both scan loops (main.c 496-500 and
521-524): `Ipoints` is reset, filled by `Vect_line_get_intersections`, and
handed to `proc_line` when the returned value is positive. -/
def scan_line (L : VectLib) (Points Profil : LinePnts) (Cats : LineCats)
    (resultset : List Result) (open3d : Int) : List Result :=
  if (L.line_get_intersections Profil Points open3d).1 > 0 then
    proc_line L (L.line_get_intersections Profil Points open3d).2 Profil Cats resultset open3d
  else
    resultset

/-- The body of the loop over all features (main.c 517-526) for one feature
read by `Vect_read_next_line` with type `type`. -/
def scan_feature (L : VectLib) (Profil Buffer : LinePnts) (open3d : Int)
    (resultset : List Result) (type : Nat) (Points : LinePnts) (Cats : LineCats) :
    Option (List Result) :=
  (if type &&& GV_POINT ≠ 0 then proc_point L Points Profil Buffer Cats resultset open3d
    else some resultset).bind fun rs =>
    if type &&& GV_LINE ≠ 0 then some (scan_line L Points Profil Cats rs open3d)
    else some rs

/-- The `switch` of the loop over the selected categories (main.c 490-502) for
one feature, `rtype` being the value returned by `Vect_read_line`. -/
def scan_selected (L : VectLib) (Profil Buffer : LinePnts) (open3d : Int)
    (resultset : List Result) (rtype : Int) (Points : LinePnts) (Cats : LineCats) :
    Option (List Result) :=
  if rtype = (GV_POINT : Int) then proc_point L Points Profil Buffer Cats resultset open3d
  else if rtype = (GV_LINE : Int) then some (scan_line L Points Profil Cats resultset open3d)
  else some resultset

/-! ## The library functions as the specification describes them

Used to run the worked scenarios of the specification. The general statements
below hold for every `VectLib`. -/

/-- The consecutive vertex pairs of a vertex list. -/
def segments (l : LinePnts) : List (Pnt × Pnt) :=
  l.zip l.tail

/-- The planar cross product of `b - a` and `c - a`. -/
def cross (a b c : Pnt) : ℚ :=
  (b.x - a.x) * (c.y - a.y) - (b.y - a.y) * (c.x - a.x)

/-- Whether `(x, y)` lies within the coordinate ranges of the segment `a b`. -/
def in_box (a b : Pnt) (x y : ℚ) : Bool :=
  decide (min a.x b.x ≤ x ∧ x ≤ max a.x b.x ∧ min a.y b.y ≤ y ∧ y ≤ max a.y b.y)

/-- Whether `(x, y)` lies on the segment `a b`. -/
def on_segment (a b : Pnt) (x y : ℚ) : Bool :=
  decide (cross a b ⟨x, y, 0⟩ = 0) && in_box a b x y

/-- Whether the ray from `(x, y)` towards growing x crosses the segment `a b`. -/
def ray_crosses (a b : Pnt) (x y : ℚ) : Bool :=
  decide ((a.y > y) ≠ (b.y > y)) &&
    decide (x < a.x + (y - a.y) * (b.x - a.x) / (b.y - a.y))

/-- Modelled from the spec: the Containment Tester of section 4.2, whose code
(`Vect_point_in_poly`) is in the vector library. Even-odd rule on the ring;
a point on the ring counts as inside. Returns 1 for inside, 0 for outside. -/
def spec_point_in_poly (x y : ℚ) (ring : LinePnts) : Int :=
  if (segments ring).any (fun s => on_segment s.1 s.2 x y) then 1
  else if ((segments ring).filter (fun s => ray_crosses s.1 s.2 x y)).length % 2 = 1 then 1
  else 0

/-- The squared planar length of the segment `a b`. -/
def len2 (a b : Pnt) : ℚ :=
  (b.x - a.x) * (b.x - a.x) + (b.y - a.y) * (b.y - a.y)

/-- The parameter in [0, 1] of the point of the segment `a b` nearest to `(x, y)`. -/
def nearest_param (a b : Pnt) (x y : ℚ) : ℚ :=
  if len2 a b = 0 then 0
  else max 0 (min 1 (((x - a.x) * (b.x - a.x) + (y - a.y) * (b.y - a.y)) / len2 a b))

/-- The squared planar distance from `(x, y)` to the segment `a b`. -/
def seg_dist2 (a b : Pnt) (x y : ℚ) : ℚ :=
  (x - (a.x + nearest_param a b x y * (b.x - a.x))) *
      (x - (a.x + nearest_param a b x y * (b.x - a.x))) +
    (y - (a.y + nearest_param a b x y * (b.y - a.y))) *
      (y - (a.y + nearest_param a b x y * (b.y - a.y)))

/-- The nearest segment seen so far while walking along a line: its squared
distance to the point, the arc length at the nearest point, and the arc length
at the start of the next segment. -/
structure Walk where
  best : Option (ℚ × ℚ)
  run : ℚ

/-- One step of the walk along the line, for the segment `a b`. An earlier
segment is kept on equal distance. -/
def walk_step (x y : ℚ) (w : Walk) (s : Pnt × Pnt) : Walk :=
  { best :=
      match w.best with
      | none =>
        some (seg_dist2 s.1 s.2 x y,
          w.run + nearest_param s.1 s.2 x y * Rat.sqrt (len2 s.1 s.2))
      | some b =>
        if seg_dist2 s.1 s.2 x y < b.1 then
          some (seg_dist2 s.1 s.2 x y,
            w.run + nearest_param s.1 s.2 x y * Rat.sqrt (len2 s.1 s.2))
        else some b
    run := w.run + Rat.sqrt (len2 s.1 s.2) }

/-- Modelled from the spec: the Distance Projector of section 4.4, whose code
(`Vect_line_distance`) is in the vector library. The planar distance to the
nearest point of the polyline, and the arc length from the first vertex to that
nearest point. Lengths are Euclidean, taken with the rational square root,
which is exact on squares of rationals. -/
def spec_line_distance (line : LinePnts) (x y _z : ℚ) (_with_z : Int) : LineDistance :=
  match ((segments line).foldl (walk_step x y) ⟨none, 0⟩).best with
  | none => ⟨0, 0⟩
  | some b => ⟨Rat.sqrt b.1, b.2⟩

/-- The planar cross product of the directions of the segments `a1 a2` and
`b1 b2`; it is 0 when the segments are parallel. -/
def dir_cross (a1 a2 b1 b2 : Pnt) : ℚ :=
  (a2.x - a1.x) * (b2.y - b1.y) - (a2.y - a1.y) * (b2.x - b1.x)

/-- The elevation at `(x, y)` interpolated linearly along the segment `b1 b2`. -/
def interp_z (b1 b2 : Pnt) (x y : ℚ) : ℚ :=
  b1.z + nearest_param b1 b2 x y * (b2.z - b1.z)

/-- The intersection points of the segment `a1 a2` of the first line with the
segment `b1 b2` of the second: the crossing point when the segments are not
parallel and meet, the shared end points when they lie on one straight line
and overlap, nothing otherwise. With z, the elevation is interpolated along
`b1 b2`. -/
def seg_intersection (a1 a2 b1 b2 : Pnt) (with_z : Int) : List Pnt :=
  if dir_cross a1 a2 b1 b2 = 0 then
    if cross a1 a2 b1 = 0 ∧ cross a1 a2 b2 = 0 then
      ((if in_box b1 b2 a1.x a1.y then [a1] else []) ++
        (if in_box b1 b2 a2.x a2.y then [a2] else []) ++
        (if in_box a1 a2 b1.x b1.y then [b1] else []) ++
        (if in_box a1 a2 b2.x b2.y then [b2] else [])).map
        (fun q => ⟨q.x, q.y, if with_z = WITH_Z then interp_z b1 b2 q.x q.y else 0⟩)
    else []
  else
    if cross b1 b2 a1 * cross b1 b2 a2 ≤ 0 ∧ cross a1 a2 b1 * cross a1 a2 b2 ≤ 0 then
      [⟨a1.x + cross b1 b2 a1 / (cross b1 b2 a1 - cross b1 b2 a2) * (a2.x - a1.x),
        a1.y + cross b1 b2 a1 / (cross b1 b2 a1 - cross b1 b2 a2) * (a2.y - a1.y),
        if with_z = WITH_Z then
          b1.z + cross a1 a2 b1 / (cross a1 a2 b1 - cross a1 a2 b2) * (b2.z - b1.z)
        else 0⟩]
    else []

/-- Modelled from the spec: the Intersection Finder of section 4.3, whose code
(`Vect_line_get_intersections`) is in the vector library. Every segment of the
first line is met with every segment of the second, a point found twice is
kept once, and the returned value is 1 when a point was found, 0 when none. -/
def spec_line_get_intersections (a b : LinePnts) (with_z : Int) : Int × LinePnts :=
  let pts := (((segments a).map fun sa =>
    ((segments b).map fun sb =>
      seg_intersection sa.1 sa.2 sb.1 sb.2 with_z).flatten).flatten).dedup
  (if pts = [] then 0 else 1, pts)

/-- Modelled from the spec: the category of a feature in a layer (section 3,
zero or one category per feature), whose code (`Vect_cat_get`) is in the
vector library. The first category of the field, -1 when the feature has
none. -/
def spec_cat_get (Cats : LineCats) (field : Int) : Int :=
  match Cats.find? (fun c => c.1 = field) with
  | some c => c.2
  | none => -1

/-- The library functions as the specification describes them. -/
def spec_lib : VectLib :=
  { point_in_poly := spec_point_in_poly
    line_distance := spec_line_distance
    cat_get := spec_cat_get
    line_get_intersections := spec_line_get_intersections }

/-- The profiling line of the worked scenarios, from (0, 0) to (10, 0). -/
def profile_0_10 : LinePnts := [⟨0, 0, 0⟩, ⟨10, 0, 0⟩]

/-- Modelled from the spec: the Corridor Builder of section 4.1, whose code
(`Vect_line_buffer`) is in the vector library, at the profiling line from
(0, 0) to (10, 0) with tolerance 1: the closed ring with flat caps at the two
ends of the line and sides at distance 1. -/
def corridor_0_10 : LinePnts :=
  [⟨0, -1, 0⟩, ⟨10, -1, 0⟩, ⟨10, 1, 0⟩, ⟨0, 1, 0⟩, ⟨0, -1, 0⟩]

/-! ## Outcomes of a run -/

/-- The messages of the `G_fatal_error` calls of `main` that the embedding
reaches. -/
inductive Msg where
  /-- The message "Tolerance value can not be less than 0". -/
  | tolerance_negative
  /-- The message "No features match Your query". -/
  | no_match
  /-- The message "Your query matches more than one record in input profiling
  map. ...". -/
  | more_than_one_record
  /-- The message "Error while reading vector feature from profile line map". -/
  | profile_read_error
  /-- The message "At least profile start and end coordinates are required!". -/
  | coordinates_required
  /-- The message "Your input profile map contains more than one line. ...". -/
  | more_than_one_line
  deriving DecidableEq, Repr

/-- The ways a part of `main` stops without a value: a call of `G_fatal_error`,
or the read of an array element that does not exist, for which C defines no
behaviour. -/
inductive Failure where
  | fatal (msg : Msg)
  | read_outside_array
  deriving DecidableEq, Repr

/-! ## Tolerance and corridor (main.c 229-232, 419-422) -/

/-- Reading and checking the tolerance (main.c 229-232):
`bufsize = fabs(atof(buffer_opt->answer))`, then `G_fatal_error` when
`bufsize < 0`. The argument is the number `atof` reads from the option. -/
def get_bufsize (answer : ℚ) : Except Failure ℚ :=
  if |answer| < 0 then Except.error (Failure.fatal Msg.tolerance_negative)
  else Except.ok |answer|

/-- The corridor construction (main.c 419-422):
`Vect_line_buffer(Profil, bufsize, 1 - (bufsize * cos((2 * M_PI) / 2)), Buffer)`.
The library function is a parameter; the cosine of a half turn is -1. -/
def build_buffer (line_buffer : LinePnts → ℚ → ℚ → LinePnts) (Profil : LinePnts)
    (bufsize : ℚ) : LinePnts :=
  line_buffer Profil bufsize (1 - bufsize * (-1))

/-- The tolerance check followed by the corridor construction, the inputs
checked in between being valid. -/
def corridor_of_answer (line_buffer : LinePnts → ℚ → ℚ → LinePnts) (Profil : LinePnts)
    (answer : ℚ) : Except Failure LinePnts :=
  match get_bufsize answer with
  | Except.error e => Except.error e
  | Except.ok bufsize => Except.ok (build_buffer line_buffer Profil bufsize)

/-! ## The profile line selected by a WHERE clause (main.c 370-400) -/

/-- One feature of a vector map: its type bit, its vertices, its categories. -/
structure Feature where
  type : Nat
  points : LinePnts
  cats : LineCats
  deriving DecidableEq, Repr

/-- The features of a vector map in storage order; feature ids count from 1. -/
abbrev VMap := List Feature

/-- Modelled from the spec: the category-indexed lookup of the Feature source
(section 6), whose code (`Vect_cidx_find_all`) is in the vector library. The
ids of the features whose type is in `type_mask` and that carry category `cat`
in layer `layer`, in storage order. -/
def cidx_find_all (m : VMap) (layer : Int) (type_mask : Nat) (cat : Int) : List Nat :=
  (m.enum.filter fun f =>
    decide (f.2.type &&& type_mask ≠ 0) && decide ((layer, cat) ∈ f.2.cats)).map
    fun f => f.1 + 1

/-- Modelled from the spec: reading one feature by id from the Feature source
(section 6), whose code (`Vect_read_line`) is in the vector library. The type
and the vertices of the feature; -1 and no vertex for an id that names no
feature. -/
def read_line (m : VMap) (id : Nat) : Int × LinePnts :=
  match m.get? (id - 1) with
  | some f => if id = 0 then (-1, []) else ((f.type : Int), f.points)
  | none => (-1, [])

/-- The selection of the profile line by the WHERE clause (main.c 370-400).
`ncats` and `cats` are the value returned and the array filled by
`db_select_int`. `Catlist` is a new list filled by `Vect_cidx_find_all`; the
code reads `cats[0]` and `Catlist->value[0]`. -/
def select_profile_where (Pro : VMap) (pro_layer : Int) (ncats : Int) (cats : List Int) :
    Except Failure LinePnts :=
  if ncats < 1 then Except.error (Failure.fatal Msg.no_match)
  else if ncats > 1 then Except.error (Failure.fatal Msg.more_than_one_record)
  else
    match cats.head? with
    | none => Except.error Failure.read_outside_array
    | some c0 =>
      if (cidx_find_all Pro pro_layer GV_LINE c0).length > 1 then
        Except.error (Failure.fatal Msg.more_than_one_record)
      else
        match (cidx_find_all Pro pro_layer GV_LINE c0).head? with
        | none => Except.error Failure.read_outside_array
        | some id =>
          if (read_line Pro id).1 ≠ (GV_LINE : Int) then
            Except.error (Failure.fatal Msg.profile_read_error)
          else Except.ok (read_line Pro id).2

/-! ## Attribute join and output (main.c 534-608) -/

/-- The SQL type codes `DB_SQL_TYPE_...` of the DBMI header. -/
inductive SqlType where
  | unknown
  | character
  | smallint
  | integer
  | real
  | double_precision
  | decimal
  | numeric
  | date
  | time
  | timestamp
  | interval
  | text
  | serial
  deriving DecidableEq, Repr

/-- One column of a `dbTable`: its name (`db_get_column_name`), its SQL type
(`db_get_column_sqltype`) and the text of its current value
(`db_convert_column_value_to_string`). -/
structure DbColumn where
  name : String
  sqltype : SqlType
  value : String
  deriving DecidableEq, Repr

/-- The layer link `struct field_info`: layer number, table and key column. -/
structure FieldInfo where
  number : Int
  table : String
  key : String
  deriving DecidableEq, Repr

/-- An open select cursor: the number of rows (`db_get_num_rows`), whether
`db_fetch` returns `DB_OK`, and the columns of the cursor table
(`db_get_table_column` on `db_get_cursor_table`) with the fetched values. -/
structure Cursor where
  nrows : Int
  fetch_ok : Bool
  column : Nat → DbColumn

/-- The warnings of the output loop. -/
inductive Warning where
  /-- The warning "Unabale to get attribute data for cat %d". -/
  | no_attribute_data (cat : Int)
  /-- The warning "Error while retreiving database record for cat %d". -/
  | record_error (cat : Int)
  deriving DecidableEq, Repr

/-- One item written to the output by a conversion of an `fprintf` format. -/
inductive Tok where
  /-- An integer written with `%d`. -/
  | int (n : Int)
  /-- The field separator `fs` written with `%s`. -/
  | fs
  /-- A double written with `%.*f` and `dp` decimals. -/
  | fixed (dp : Int) (v : Option ℚ)
  /-- Text written literally or with `%s`. -/
  | str (s : String)
  /-- The end of the line. -/
  | nl
  deriving DecidableEq, Repr

/-- The double quote character that `fprintf(ascii, "%s\"%s\"", ...)` puts
around a value. -/
def dquote : String := String.singleton (Char.ofNat 34)

/-- The test `type == DB_SQL_TYPE_CHARACTER || ...` of main.c 581-587. -/
def quoted (type : SqlType) : Bool :=
  type == SqlType.character ||
  type == SqlType.date ||
  type == SqlType.time ||
  type == SqlType.timestamp ||
  type == SqlType.interval ||
  type == SqlType.text ||
  type == SqlType.serial

/-- The output for one column of a fetched row (main.c 575-592). -/
def print_column (column : DbColumn) : List Tok :=
  if quoted column.sqltype then [Tok.fs, Tok.str (dquote ++ column.value ++ dquote)]
  else [Tok.fs, Tok.str column.value]

/-- The header line (main.c 534-546). `table` gives the columns of the table
described at the start, `ncols` their number. -/
def print_header (no_column_flag : Bool) (open3d : Int) (Fi : Option FieldInfo)
    (ncols : Nat) (table : Nat → DbColumn) : List Tok :=
  if no_column_flag then []
  else
    [Tok.str "Number", Tok.fs, Tok.str "Distance"] ++
      (if open3d = WITH_Z then [Tok.fs, Tok.str "Z"] else []) ++
      (if Fi.isSome then
        ((List.range ncols).map fun col => [Tok.fs, Tok.str (table col).name]).flatten
      else []) ++
      [Tok.nl]

/-- The attribute part of one output line (main.c 558-601), `cursor` being
what `db_open_select_cursor` gave for the query on the category `cat`: `none`
when it did not return `DB_OK`. -/
def print_attributes (ncols : Nat) (cursor : Option Cursor) (cat : Int) :
    List Tok × List Warning :=
  match cursor with
  | none => ([], [Warning.no_attribute_data cat])
  | some c =>
    if c.nrows > 0 then
      if c.fetch_ok then
        (((List.range ncols).map fun col => print_column (c.column col)).flatten, [])
      else ([], [Warning.record_error cat])
    else
      (((List.range ncols).map fun _ => [Tok.fs]).flatten, [])

/-- One turn of the output loop (main.c 549-608) for the record at index `i`:
the tokens of the line and the warnings given. The flush of the output is
taken to succeed. -/
def print_record (open3d : Int) (dp : Int) (Fi : Option FieldInfo) (ncols : Nat)
    (cursor : Option Cursor) (i : Nat) (r : Result) : List Tok × List Warning :=
  ([Tok.int ((i : Int) + 1), Tok.fs, Tok.fixed dp (some r.distance)] ++
      (if open3d = WITH_Z then [Tok.fs, Tok.fixed dp r.z] else []) ++
      (if Fi.isSome then (print_attributes ncols cursor r.cat).1 else []) ++
      [Tok.nl],
    if Fi.isSome then (print_attributes ncols cursor r.cat).2 else [])

/-- The output loop (main.c 549-608) over the sorted result set. `select`
stands for `db_open_select_cursor` on the query
`select * from <table> where <key>=<cat>`. -/
def print_results (open3d : Int) (dp : Int) (Fi : Option FieldInfo) (ncols : Nat)
    (select : String → String → Int → Option Cursor) (resultset : List Result) :
    List (List Tok × List Warning) :=
  resultset.enum.map fun ir =>
    print_record open3d dp Fi ncols
      (match Fi with
        | some fi => select fi.table fi.key ir.2.cat
        | none => none)
      ir.1 ir.2

/-- The number of field separators in a line. -/
def separators (line : List Tok) : Nat :=
  line.count Tok.fs

/-- A table of two columns used in the examples: an integer key and a text. -/
def example_column (values : List String) (col : Nat) : DbColumn :=
  match col with
  | 0 => ⟨"cat", SqlType.integer, values.getD 0 ""⟩
  | _ => ⟨"name", SqlType.text, values.getD 1 ""⟩

/-! ## The profiling line (main.c 277-288, 323-417) -/

/-- The loop over the coordinate answers (main.c 279-283), the parser handing
the answers over in pairs of east and north: each pair is appended to `Profil`
with z = 0 and the index `i` grows by 2. The result is `Profil` and `i` at the
end of the loop. -/
def coords_loop : List (ℚ × ℚ) → LinePnts → Nat → LinePnts × Nat
  | [], Profil, i => (Profil, i)
  | xy :: rest, Profil, i => coords_loop rest (Profil ++ [⟨xy.1, xy.2, 0⟩]) (i + 2)

/-- The profiling line built from the coordinates (main.c 277-288): the loop
on an empty `Profil`, then the test `i == 2`. -/
def profile_from_coords (answers : List (ℚ × ℚ)) : Except Failure LinePnts :=
  if (coords_loop answers [] 0).2 = 2 then
    Except.error (Failure.fatal Msg.coordinates_required)
  else Except.ok (coords_loop answers [] 0).1

/-- The loop over the profile map without a WHERE clause (main.c 404-408):
`Vect_read_next_line(&Pro, Profil, NULL)` puts the vertices of each feature
into `Profil` and returns its type, positive for a feature; `c` counts the
features with the bit `GV_LINE`. The loop ends at the end of the map, or at a
return value that is not positive. The result is `Profil` and `c` at the end
of the loop. -/
def read_all_loop : List Feature → LinePnts → Nat → LinePnts × Nat
  | [], Profil, c => (Profil, c)
  | f :: rest, Profil, c =>
    if f.type > 0 then
      read_all_loop rest f.points (if f.type &&& GV_LINE ≠ 0 then c + 1 else c)
    else (Profil, c)

/-- The profiling line read from a profile map without a WHERE clause
(main.c 402-416): the loop on the new, empty `Profil` with `c = 0`, then the
test `c > 1`. -/
def profile_from_map (Pro : VMap) : Except Failure LinePnts :=
  if (read_all_loop Pro [] 0).2 > 1 then
    Except.error (Failure.fatal Msg.more_than_one_line)
  else Except.ok (read_all_loop Pro [] 0).1

/-- The three ways the options name the profiling line: the coordinate list,
a profile map, or a profile map with a WHERE clause (with the layer of the
profile map and what `db_select_int` returned for the clause). -/
inductive ProfileInput where
  | coords (answers : List (ℚ × ℚ))
  | map (Pro : VMap)
  | map_where (Pro : VMap) (pro_layer ncats : Int) (cats : List Int)

/-- The profiling line `Profil` as it stands before the corridor is built
(main.c 277-288 and 323-417). -/
def get_profile : ProfileInput → Except Failure LinePnts
  | ProfileInput.coords answers => profile_from_coords answers
  | ProfileInput.map Pro => profile_from_map Pro
  | ProfileInput.map_where Pro pro_layer ncats cats =>
    select_profile_where Pro pro_layer ncats cats

/-- The corridor of a run (main.c 277-422) for a tolerance `bufsize`: the
profiling line, then `Vect_line_buffer` on it. The result holds the polyline
handed to `Vect_line_buffer` and the corridor. -/
def profile_corridor (line_buffer : LinePnts → ℚ → ℚ → LinePnts) (input : ProfileInput)
    (bufsize : ℚ) : Except Failure (LinePnts × LinePnts) :=
  match get_profile input with
  | Except.error e => Except.error e
  | Except.ok Profil => Except.ok (Profil, build_buffer line_buffer Profil bufsize)

/-! ## The layer of the categories and of the join (main.c 314-321, 553-557) -/

/-- Modelled from the spec: the database link of a layer (section 4.7, "a
database link for the layer in use"), whose code (`Vect_get_field`) is in the
vector library. The link with the layer number, `none` when the map has no
link for the layer. -/
def get_field (links : List FieldInfo) (layer : Int) : Option FieldInfo :=
  links.find? fun fi => fi.number = layer

/-- The query built for a record (main.c 554-555),
`sprintf(sql, "select * from %s where %s=%d", Fi->table, Fi->key, resultset[i].cat)`:
its table, its key column and its key value. -/
def join_query (Fi : FieldInfo) (r : Result) : String × String × Int :=
  (Fi.table, Fi.key, r.cat)

/-! ## Theorems -/

theorem compdist_le_zero_iff (a b : Result) : compdist a b ≤ 0 ↔ dist_cat_le a b := by
  unfold compdist dist_cat_le
  by_cases h : a.distance = b.distance
  · by_cases hc : a.cat > b.cat
    · simp [h, hc]
    · simp [h, hc]
      omega
  · by_cases hd : a.distance > b.distance
    · simp [h, hd]
      exact le_of_lt hd
    · simp [h, hd]
      exact lt_of_le_of_ne (not_lt.mp hd) h

theorem dist_cat_le_trans (a b c : Result) (hab : dist_cat_le a b) (hbc : dist_cat_le b c) :
    dist_cat_le a c := by
  unfold dist_cat_le at *
  rcases hab with h1 | ⟨h1, h1c⟩
  · rcases hbc with h2 | ⟨h2, _⟩
    · exact Or.inl (lt_trans h1 h2)
    · exact Or.inl (h2 ▸ h1)
  · rcases hbc with h2 | ⟨h2, h2c⟩
    · exact Or.inl (h1 ▸ h2)
    · exact Or.inr ⟨h1.trans h2, le_trans h1c h2c⟩

theorem dist_cat_le_total (a b : Result) : dist_cat_le a b ∨ dist_cat_le b a := by
  unfold dist_cat_le
  rcases lt_trichotomy a.distance b.distance with h | h | h
  · exact Or.inl (Or.inl h)
  · rcases le_total a.cat b.cat with hc | hc
    · exact Or.inl (Or.inr ⟨h, hc⟩)
    · exact Or.inr (Or.inr ⟨h.symm, hc⟩)
  · exact Or.inr (Or.inl h)

/-- Every result set has a sorted arrangement: the reference sort reaches the
state `qsort` is specified to leave. -/
theorem sort_step_total (rs : List Result) : sort_step rs (qsort_ref compdist rs) := by
  haveI : IsTotal Result (fun a b => compdist a b ≤ 0) :=
    ⟨fun a b => by
      rw [compdist_le_zero_iff, compdist_le_zero_iff]
      exact dist_cat_le_total a b⟩
  haveI : IsTrans Result (fun a b => compdist a b ≤ 0) :=
    ⟨fun a b c hab hbc => by
      rw [compdist_le_zero_iff] at *
      exact dist_cat_le_trans a b c hab hbc⟩
  refine ⟨List.perm_insertionSort _ rs, ?_⟩
  exact (List.sorted_insertionSort (fun a b => compdist a b ≤ 0) rs).chain'

theorem sort_step_chain (before after : List Result) (h : sort_step before after) :
    after.Chain' dist_cat_le := by
  refine List.Chain'.imp ?_ h.2
  intro a b hab
  exact (compdist_le_zero_iff a b).mp hab

/-- C1. After the sort step every record and its successor are in order:
the distance grows, or the distances are equal and the category does not
decrease. Two records at distance 4 with categories 9 and 3 end with
category 3 first. -/
theorem sorted_adjacent_order (before after : List Result) (h : sort_step before after) :
    after.Chain' (fun a b =>
        a.distance < b.distance ∨ (a.distance = b.distance ∧ a.cat ≤ b.cat)) ∧
      (∀ z9 z3 : Option ℚ, before.Perm [⟨4, 9, z9⟩, ⟨4, 3, z3⟩] →
        after = [⟨4, 3, z3⟩, ⟨4, 9, z9⟩]) := by
  refine ⟨sort_step_chain before after h, ?_⟩
  intro z9 z3 hb
  have hp : after.Perm [⟨4, 9, z9⟩, ⟨4, 3, z3⟩] := h.1.trans hb
  have hlen := hp.length_eq
  have hch := h.2
  match after, hp, hlen, hch with
  | [x, y], hp, _, hch =>
    have hx : x ∈ [(⟨4, 9, z9⟩ : Result), ⟨4, 3, z3⟩] := hp.subset (by simp)
    have hy : y ∈ [(⟨4, 9, z9⟩ : Result), ⟨4, 3, z3⟩] := hp.subset (by simp)
    have h9 : (⟨4, 9, z9⟩ : Result) ∈ [x, y] := hp.symm.subset (by simp)
    have h3 : (⟨4, 3, z3⟩ : Result) ∈ [x, y] := hp.symm.subset (by simp)
    simp only [List.mem_cons, List.mem_singleton, List.not_mem_nil, or_false] at hx hy h9 h3
    rcases hx with rfl | rfl <;> rcases hy with rfl | rfl
    · simp at h3
    · simp [compdist] at hch
    · rfl
    · simp at h9

/-- The scenario of C1: the records (4, 9) and (4, 3) are left as (4, 3), (4, 9). -/
theorem sorted_adjacent_order_witness :
    sort_step [⟨4, 9, none⟩, ⟨4, 3, none⟩] [⟨4, 3, none⟩, ⟨4, 9, none⟩] ∧
      List.Chain' (fun a b : Result =>
        a.distance < b.distance ∨ (a.distance = b.distance ∧ a.cat ≤ b.cat))
        [⟨4, 3, none⟩, ⟨4, 9, none⟩] :=
  ⟨⟨List.Perm.swap _ _ [], by simp [compdist]⟩,
    (sorted_adjacent_order [⟨4, 9, none⟩, ⟨4, 3, none⟩] [⟨4, 3, none⟩, ⟨4, 9, none⟩]
      ⟨List.Perm.swap _ _ [], by simp [compdist]⟩).1⟩

/-- C2. The comparison function never answers 0: a record compared with itself,
and any two records with equal distance and equal category, give -1 in both
directions, so the sign of `compdist a b` is not the negation of the sign of
`compdist b a` there. -/
theorem compdist_never_zero (a b : Result) :
    compdist a b ≠ 0 ∧ compdist a a = -1 ∧
      compdist ⟨4, 3, some 1⟩ ⟨4, 3, some 2⟩ = -1 ∧
      compdist ⟨4, 3, some 2⟩ ⟨4, 3, some 1⟩ = -1 := by
  refine ⟨?_, ?_, ?_, ?_⟩
  · unfold compdist
    split_ifs <;> decide
  · simp [compdist]
  · simp [compdist]
  · simp [compdist]

theorem sort_key_chain (before after : List Result) (h : sort_step before after) :
    (after.map sort_key).Sorted
      (fun p q : ℚ × Int => p.1 < q.1 ∨ (p.1 = q.1 ∧ p.2 ≤ q.2)) := by
  haveI : IsTrans (ℚ × Int) (fun p q : ℚ × Int => p.1 < q.1 ∨ (p.1 = q.1 ∧ p.2 ≤ q.2)) :=
    ⟨fun p q r hpq hqr => by
      rcases hpq with h1 | ⟨h1, h1c⟩
      · rcases hqr with h2 | ⟨h2, _⟩
        · exact Or.inl (lt_trans h1 h2)
        · exact Or.inl (h2 ▸ h1)
      · rcases hqr with h2 | ⟨h2, h2c⟩
        · exact Or.inl (h1 ▸ h2)
        · exact Or.inr ⟨h1.trans h2, le_trans h1c h2c⟩⟩
  have hc := sort_step_chain before after h
  have hm : (after.map sort_key).Chain'
      (fun p q : ℚ × Int => p.1 < q.1 ∨ (p.1 = q.1 ∧ p.2 ≤ q.2)) := by
    rw [List.chain'_map]
    exact hc
  exact List.chain'_iff_pairwise.mp hm

/-- C3, as the code has it. Sorting the output of the sort step again leaves
the same records, with the same distance and the same category at every
position; records that share distance and category may change places. -/
theorem resort_keeps_keys (before once twice : List Result)
    (h1 : sort_step before once) (h2 : sort_step once twice) :
    twice.Perm once ∧ twice.map sort_key = once.map sort_key := by
  haveI : IsAntisymm (ℚ × Int)
      (fun p q : ℚ × Int => p.1 < q.1 ∨ (p.1 = q.1 ∧ p.2 ≤ q.2)) :=
    ⟨fun p q hpq hqp => by
      rcases hpq with h | ⟨h, hc⟩
      · rcases hqp with h' | ⟨h', _⟩
        · exact absurd h (lt_asymm h')
        · exact absurd h (h' ▸ lt_irrefl _)
      · rcases hqp with h' | ⟨_, hc'⟩
        · exact absurd h' (h ▸ lt_irrefl _)
        · exact Prod.ext h (le_antisymm hc hc')⟩
  refine ⟨h2.1, ?_⟩
  exact List.eq_of_perm_of_sorted (h2.1.map sort_key)
    (sort_key_chain once twice h2) (sort_key_chain before once h1)

/-- Two sort steps in a row on two records at distance 4 with category 3. -/
theorem resort_keeps_keys_witness :
    sort_step [⟨4, 3, some 1⟩, ⟨4, 3, some 2⟩] [⟨4, 3, some 1⟩, ⟨4, 3, some 2⟩] ∧
      sort_step [⟨4, 3, some 1⟩, ⟨4, 3, some 2⟩] [⟨4, 3, some 2⟩, ⟨4, 3, some 1⟩] ∧
      List.map sort_key [⟨4, 3, some 2⟩, ⟨4, 3, some 1⟩] =
        List.map sort_key [⟨4, 3, some 1⟩, ⟨4, 3, some 2⟩] :=
  ⟨⟨List.Perm.refl _, by simp [compdist]⟩,
    ⟨List.Perm.swap _ _ [], by simp [compdist]⟩,
    (resort_keeps_keys [⟨4, 3, some 1⟩, ⟨4, 3, some 2⟩]
      [⟨4, 3, some 1⟩, ⟨4, 3, some 2⟩] [⟨4, 3, some 2⟩, ⟨4, 3, some 1⟩]
      ⟨List.Perm.refl _, by simp [compdist]⟩
      ⟨List.Perm.swap _ _ [], by simp [compdist]⟩).2⟩

/-- C3 as stated fails: the list of two records at distance 4 with category 3
and elevations 1 and 2 is an output of the sort step, and the sort step applied
to it may leave the two records exchanged. -/
theorem resort_not_identical :
    sort_step [⟨4, 3, some 1⟩, ⟨4, 3, some 2⟩] [⟨4, 3, some 1⟩, ⟨4, 3, some 2⟩] ∧
      sort_step [⟨4, 3, some 1⟩, ⟨4, 3, some 2⟩] [⟨4, 3, some 2⟩, ⟨4, 3, some 1⟩] ∧
      ([⟨4, 3, some 2⟩, ⟨4, 3, some 1⟩] : List Result) ≠
        [⟨4, 3, some 1⟩, ⟨4, 3, some 2⟩] :=
  ⟨⟨List.Perm.refl _, by simp [compdist]⟩,
    ⟨List.Perm.swap _ _ [], by simp [compdist]⟩, by decide⟩

theorem proc_line_eq (L : VectLib) (Ipoints Profil : LinePnts) (Cats : LineCats)
    (resultset : List Result) (open3d : Int) :
    proc_line L Ipoints Profil Cats resultset open3d =
      resultset ++ Ipoints.map (fun q =>
        { distance := (L.line_distance Profil q.x q.y q.z open3d).lpdist
          cat := L.cat_get Cats 1
          z := if open3d = WITH_Z then some q.z else none }) := by
  unfold proc_line
  induction Ipoints generalizing resultset with
  | nil => simp
  | cons q rest ih =>
    rw [List.foldl_cons, ih]
    simp [add_point]

theorem scan_line_eq (L : VectLib) (Points Profil : LinePnts) (Cats : LineCats)
    (resultset : List Result) (open3d : Int)
    (h : 0 < (L.line_get_intersections Profil Points open3d).1 ∨
      (L.line_get_intersections Profil Points open3d).2 = []) :
    scan_line L Points Profil Cats resultset open3d =
      resultset ++ (L.line_get_intersections Profil Points open3d).2.map (fun q =>
        { distance := (L.line_distance Profil q.x q.y q.z open3d).lpdist
          cat := L.cat_get Cats 1
          z := if open3d = WITH_Z then some q.z else none }) := by
  unfold scan_line
  by_cases hr : (L.line_get_intersections Profil Points open3d).1 > 0
  · rw [if_pos hr, proc_line_eq]
  · rw [if_neg hr]
    rcases h with h | h
    · exact absurd h hr
    · rw [h]
      simp

/-- C4. For a point feature with vertex `p`, `proc_point` appends one record
when the containment test is positive and leaves the result set as it was
otherwise. The record holds the distance along the profiling line (`lpdist`)
of the point and the category of the feature. -/
theorem proc_point_appends (L : VectLib) (p : Pnt) (Points Profil Buffer : LinePnts)
    (Cats : LineCats) (resultset : List Result) (open3d : Int)
    (hp : Points.head? = some p) :
    proc_point L Points Profil Buffer Cats resultset open3d =
      some (if 0 < L.point_in_poly p.x p.y Buffer then
        resultset ++
          [{ distance := (L.line_distance Profil p.x p.y p.z open3d).lpdist
             cat := L.cat_get Cats 1
             z := if open3d = WITH_Z then some p.z else none }]
        else resultset) := by
  cases Points with
  | nil => simp at hp
  | cons q rest =>
    simp only [List.head?_cons, Option.some.injEq] at hp
    subst hp
    unfold proc_point
    by_cases hin : L.point_in_poly q.x q.y Buffer > 0
    · simp [hin, add_point]
    · have hin' : ¬ 0 < L.point_in_poly q.x q.y Buffer := hin
      simp [hin']

/-- The scenarios of C4: the profiling line from (0, 0) to (10, 0) with
tolerance 1; the point (5, 1/2) with category 7 gives one record with distance
5 (its distance to the line being 1/2) and category 7, the point (5, 2) gives
none. -/
theorem proc_point_appends_witness :
    proc_point spec_lib [⟨5, 1 / 2, 0⟩] profile_0_10 corridor_0_10 [(1, 7)] [] WITHOUT_Z =
        some [⟨5, 7, none⟩] ∧
      spec_line_distance profile_0_10 5 (1 / 2) 0 WITHOUT_Z = ⟨1 / 2, 5⟩ ∧
      proc_point spec_lib [⟨5, 2, 0⟩] profile_0_10 corridor_0_10 [(1, 7)] [] WITHOUT_Z =
        some [] := by
  refine ⟨?_, ?_, ?_⟩
  · rw [proc_point_appends spec_lib ⟨5, 1 / 2, 0⟩ [⟨5, 1 / 2, 0⟩] profile_0_10 corridor_0_10
      [(1, 7)] [] WITHOUT_Z rfl]
    norm_num [spec_lib, spec_point_in_poly, spec_line_distance, spec_cat_get,
      segments, on_segment, in_box, cross, ray_crosses, walk_step, seg_dist2, nearest_param,
      len2, profile_0_10, corridor_0_10, WITH_Z, WITHOUT_Z]
  · norm_num [spec_line_distance, segments, walk_step, seg_dist2, nearest_param, len2,
      profile_0_10, Rat.sqrt]
  · rw [proc_point_appends spec_lib ⟨5, 2, 0⟩ [⟨5, 2, 0⟩] profile_0_10 corridor_0_10
      [(1, 7)] [] WITHOUT_Z rfl]
    norm_num [spec_lib, spec_point_in_poly, spec_line_distance, spec_cat_get,
      segments, on_segment, in_box, cross, ray_crosses, walk_step, seg_dist2, nearest_param,
      len2, profile_0_10, corridor_0_10, WITH_Z, WITHOUT_Z]

/-- C5. For a line feature whose intersection with the profiling line was
reported with its points (a positive return value, or no point), both scan
loops append one record per intersection point, in the order the points were
returned, each with the distance along the profiling line of its point and the
category of the feature; with no point the result set is as it was. -/
theorem line_feature_appends (L : VectLib) (Points Profil Buffer : LinePnts)
    (Cats : LineCats) (resultset : List Result) (open3d : Int)
    (h : 0 < (L.line_get_intersections Profil Points open3d).1 ∨
      (L.line_get_intersections Profil Points open3d).2 = []) :
    scan_feature L Profil Buffer open3d resultset GV_LINE Points Cats =
        some (resultset ++ (L.line_get_intersections Profil Points open3d).2.map (fun q =>
          { distance := (L.line_distance Profil q.x q.y q.z open3d).lpdist
            cat := L.cat_get Cats 1
            z := if open3d = WITH_Z then some q.z else none })) ∧
      scan_selected L Profil Buffer open3d resultset (GV_LINE : Int) Points Cats =
        some (resultset ++ (L.line_get_intersections Profil Points open3d).2.map (fun q =>
          { distance := (L.line_distance Profil q.x q.y q.z open3d).lpdist
            cat := L.cat_get Cats 1
            z := if open3d = WITH_Z then some q.z else none })) := by
  constructor
  · unfold scan_feature
    have h1 : ¬ (GV_LINE &&& GV_POINT ≠ 0) := by decide
    have h2 : GV_LINE &&& GV_LINE ≠ 0 := by decide
    rw [if_neg h1, Option.some_bind, if_pos h2, scan_line_eq L Points Profil Cats resultset open3d h]
  · unfold scan_selected
    have h1 : ¬ ((GV_LINE : Int) = (GV_POINT : Int)) := by decide
    rw [if_neg h1, if_pos rfl, scan_line_eq L Points Profil Cats resultset open3d h]

/-- The scenario of C5: the profiling line from (0, 0) to (10, 0) and a line
from (3, -5) to (3, 5) give one intersection point and one record, with
distance 3. -/
theorem line_feature_appends_witness :
    spec_line_get_intersections profile_0_10 [⟨3, -5, 0⟩, ⟨3, 5, 0⟩] WITHOUT_Z =
        (1, [⟨3, 0, 0⟩]) ∧
      scan_feature spec_lib profile_0_10 corridor_0_10 WITHOUT_Z [] GV_LINE
        [⟨3, -5, 0⟩, ⟨3, 5, 0⟩] [(1, 4)] = some [⟨3, 4, none⟩] := by
  have hi : spec_line_get_intersections profile_0_10 [⟨3, -5, 0⟩, ⟨3, 5, 0⟩] WITHOUT_Z =
      (1, [⟨3, 0, 0⟩]) := by
    norm_num [spec_line_get_intersections, seg_intersection, dir_cross, interp_z, segments,
      in_box, cross, nearest_param, len2, profile_0_10, WITH_Z, WITHOUT_Z]
  refine ⟨hi, ?_⟩
  have hl : spec_lib.line_get_intersections profile_0_10 [⟨3, -5, 0⟩, ⟨3, 5, 0⟩] WITHOUT_Z =
      (1, [⟨3, 0, 0⟩]) := hi
  rw [(line_feature_appends spec_lib [⟨3, -5, 0⟩, ⟨3, 5, 0⟩] profile_0_10 corridor_0_10
    [(1, 4)] [] WITHOUT_Z (Or.inl (by rw [hl]; decide))).1, hl]
  norm_num [spec_lib, spec_line_distance, spec_cat_get, segments, walk_step, seg_dist2,
    nearest_param, len2, profile_0_10, WITH_Z, WITHOUT_Z]

/-- C6. The tolerance check never stops a run: the sign of the option value
is dropped before the test, so the value -5 passes with radius 5 and the
corridor is built with radius 5. -/
theorem negative_tolerance_accepted (line_buffer : LinePnts → ℚ → ℚ → LinePnts)
    (Profil : LinePnts) (answer : ℚ) :
    get_bufsize answer = Except.ok |answer| ∧
      get_bufsize (-5) = Except.ok 5 ∧
      corridor_of_answer line_buffer Profil (-5) = Except.ok (line_buffer Profil 5 6) := by
  have h : ∀ v : ℚ, get_bufsize v = Except.ok |v| := by
    intro v
    unfold get_bufsize
    rw [if_neg (not_lt.mpr (abs_nonneg v))]
  refine ⟨h answer, ?_, ?_⟩
  · rw [h]
    norm_num
  · unfold corridor_of_answer
    rw [h]
    norm_num [build_buffer]

/-- The three checked cases of the selection by a WHERE clause end in a fatal
error: no selected row, more than one selected row, and more than one line
feature with the selected category. -/
theorem where_selection_fatal_cases (Pro : VMap) (pro_layer ncats c0 : Int)
    (cats rest : List Int) :
    (ncats < 1 →
      select_profile_where Pro pro_layer ncats cats =
        Except.error (Failure.fatal Msg.no_match)) ∧
    (1 < ncats →
      select_profile_where Pro pro_layer ncats cats =
        Except.error (Failure.fatal Msg.more_than_one_record)) ∧
    (1 < (cidx_find_all Pro pro_layer GV_LINE c0).length →
      select_profile_where Pro pro_layer 1 (c0 :: rest) =
        Except.error (Failure.fatal Msg.more_than_one_record)) := by
  refine ⟨?_, ?_, ?_⟩
  · intro h
    simp [select_profile_where, h]
  · intro h
    have h1 : ¬ ncats < 1 := by omega
    simp [select_profile_where, h, h1]
  · intro h
    simp [select_profile_where, h]

/-- C7. A profile map whose only feature of category 5 is a point, and a WHERE
clause that selects the one category 5: no line feature carries the category,
and the selection ends in the read of `Catlist->value[0]` of an empty list,
not in a fatal error. -/
theorem where_without_line_reads_outside :
    cidx_find_all [⟨GV_POINT, [⟨1, 1, 0⟩], [(1, 5)]⟩, ⟨GV_LINE, profile_0_10, [(1, 6)]⟩] 1
        GV_LINE 5 = [] ∧
      select_profile_where
        [⟨GV_POINT, [⟨1, 1, 0⟩], [(1, 5)]⟩, ⟨GV_LINE, profile_0_10, [(1, 6)]⟩] 1 1 [5] =
        Except.error Failure.read_outside_array := by
  have hc : cidx_find_all
      [⟨GV_POINT, [⟨1, 1, 0⟩], [(1, 5)]⟩, ⟨GV_LINE, profile_0_10, [(1, 6)]⟩] 1 GV_LINE 5 =
      [] := by decide
  refine ⟨hc, ?_⟩
  simp [select_profile_where, hc]

theorem separators_append (l1 l2 : List Tok) :
    separators (l1 ++ l2) = separators l1 + separators l2 := by
  simp [separators]

theorem separators_empty_fields (n : Nat) :
    ((List.range n).map fun _ => [Tok.fs]).flatten = List.replicate n Tok.fs := by
  induction n with
  | zero => rfl
  | succ k ih =>
    rw [List.range_succ, List.map_append, List.flatten_append, ih]
    simp [List.replicate_succ']

theorem separators_names (n : Nat) (table : Nat → DbColumn) :
    separators ((List.range n).map fun col => [Tok.fs, Tok.str (table col).name]).flatten =
      n := by
  induction n with
  | zero => rfl
  | succ k ih =>
    rw [List.range_succ, List.map_append, List.flatten_append, separators_append, ih]
    simp [separators]

/-- C8. When the select cursor cannot be opened the line of the record ends
after the distance (and elevation): a warning is given and no field separator
is written for the attribute columns. With a table of two columns the header
has 3 separators and the line of a record whose lookup failed, at the opening
of the cursor or at the fetch of the row, has 1. -/
theorem lookup_failure_drops_fields (open3d dp : Int) (fi : FieldInfo) (ncols i : Nat)
    (r : Result) :
    print_record open3d dp (some fi) ncols none i r =
        ([Tok.int ((i : Int) + 1), Tok.fs, Tok.fixed dp (some r.distance)] ++
          (if open3d = WITH_Z then [Tok.fs, Tok.fixed dp r.z] else []) ++ [Tok.nl],
          [Warning.no_attribute_data r.cat]) ∧
      separators (print_header false WITHOUT_Z (some ⟨1, "t", "cat"⟩) 2 (example_column [])) =
        3 ∧
      print_record WITHOUT_Z 2 (some ⟨1, "t", "cat"⟩) 2 none 0 ⟨5, 7, none⟩ =
        ([Tok.int 1, Tok.fs, Tok.fixed 2 (some 5), Tok.nl], [Warning.no_attribute_data 7]) ∧
      print_record WITHOUT_Z 2 (some ⟨1, "t", "cat"⟩) 2
          (some ⟨1, false, example_column ["7", "oak"]⟩) 0 ⟨5, 7, none⟩ =
        ([Tok.int 1, Tok.fs, Tok.fixed 2 (some 5), Tok.nl], [Warning.record_error 7]) := by
  refine ⟨?_, ?_, ?_, ?_⟩
  · simp [print_record, print_attributes]
  · decide
  · simp [print_record, print_attributes, WITH_Z, WITHOUT_Z]
  · simp [print_record, print_attributes, WITH_Z, WITHOUT_Z]

/-- C9. For a record whose category matches no row of a table with `ncols`
columns, the line is the sequence number counted from 1, the distance, the
elevation when the map is read with z, and `ncols` separators with nothing
between them; it has as many separators, and so as many fields, as the header
line. -/
theorem missing_row_keeps_field_count (open3d dp : Int) (fi : FieldInfo) (ncols i : Nat)
    (r : Result) (fetch_ok : Bool) (column table : Nat → DbColumn) :
    (print_record open3d dp (some fi) ncols (some ⟨0, fetch_ok, column⟩) i r).1 =
        [Tok.int ((i : Int) + 1), Tok.fs, Tok.fixed dp (some r.distance)] ++
          (if open3d = WITH_Z then [Tok.fs, Tok.fixed dp r.z] else []) ++
          List.replicate ncols Tok.fs ++ [Tok.nl] ∧
      (print_record open3d dp (some fi) ncols (some ⟨0, fetch_ok, column⟩) i r).2 = [] ∧
      separators (print_record open3d dp (some fi) ncols (some ⟨0, fetch_ok, column⟩) i r).1 =
        separators (print_header false open3d (some fi) ncols table) := by
  have h1 : (print_record open3d dp (some fi) ncols (some ⟨0, fetch_ok, column⟩) i r).1 =
      [Tok.int ((i : Int) + 1), Tok.fs, Tok.fixed dp (some r.distance)] ++
        (if open3d = WITH_Z then [Tok.fs, Tok.fixed dp r.z] else []) ++
        List.replicate ncols Tok.fs ++ [Tok.nl] := by
    simp [print_record, print_attributes, separators_empty_fields]
  refine ⟨h1, ?_, ?_⟩
  · simp [print_record, print_attributes]
  · rw [h1]
    unfold print_header
    simp only [Bool.false_eq_true, if_false, Option.isSome_some, if_true]
    rw [separators_append, separators_append, separators_append, separators_append,
      separators_append, separators_names]
    by_cases hz : open3d = WITH_Z
    · simp [hz, separators]
    · simp [hz, separators]

/-- C10. For a found row the columns are written in the order of the table,
each as the separator followed by the value; the value stands between two
double quote characters when the SQL type of the column is character, text,
date, time, timestamp, interval or serial, and is written as it is for any
other type. -/
theorem found_row_quoting (open3d dp : Int) (fi : FieldInfo) (ncols i : Nat) (r : Result)
    (nrows : Int) (column : Nat → DbColumn) (h : 0 < nrows) :
    print_record open3d dp (some fi) ncols (some ⟨nrows, true, column⟩) i r =
      ([Tok.int ((i : Int) + 1), Tok.fs, Tok.fixed dp (some r.distance)] ++
        (if open3d = WITH_Z then [Tok.fs, Tok.fixed dp r.z] else []) ++
        ((List.range ncols).map fun col =>
          [Tok.fs,
            Tok.str
              (if (column col).sqltype ∈
                  [SqlType.character, SqlType.text, SqlType.date, SqlType.time,
                    SqlType.timestamp, SqlType.interval, SqlType.serial] then
                dquote ++ (column col).value ++ dquote
              else (column col).value)]).flatten ++
        [Tok.nl], []) := by
  have hcol : ∀ c : DbColumn, print_column c =
      [Tok.fs,
        Tok.str
          (if c.sqltype ∈
              [SqlType.character, SqlType.text, SqlType.date, SqlType.time,
                SqlType.timestamp, SqlType.interval, SqlType.serial] then
            dquote ++ c.value ++ dquote
          else c.value)] := by
    intro c
    unfold print_column quoted
    cases c.sqltype <;> simp
  have hn : nrows > 0 := h
  simp [print_record, print_attributes, hn, hcol]

/-- A found row of C10: an integer column with value 7 and a text column with
value oak are written as 7 and as oak between double quotes. -/
theorem found_row_quoting_witness :
    print_record WITHOUT_Z 2 (some ⟨1, "t", "cat"⟩) 2
        (some ⟨1, true, example_column ["7", "oak"]⟩) 0 ⟨5, 7, none⟩ =
      ([Tok.int 1, Tok.fs, Tok.fixed 2 (some 5), Tok.fs, Tok.str "7", Tok.fs,
        Tok.str (dquote ++ "oak" ++ dquote), Tok.nl], []) := by
  rw [found_row_quoting WITHOUT_Z 2 ⟨1, "t", "cat"⟩ 2 0 ⟨5, 7, none⟩ 1
    (example_column ["7", "oak"]) (by decide)]
  simp [example_column, WITH_Z, WITHOUT_Z, List.range_succ]

theorem coords_loop_eq (answers : List (ℚ × ℚ)) (Profil : LinePnts) (i : Nat) :
    coords_loop answers Profil i =
      (Profil ++ answers.map (fun xy => (⟨xy.1, xy.2, 0⟩ : Pnt)), i + 2 * answers.length) := by
  induction answers generalizing Profil i with
  | nil => simp [coords_loop]
  | cons xy rest ih =>
    rw [coords_loop, ih]
    simp only [List.map_cons, List.length_cons, List.append_assoc, List.singleton_append,
      Prod.mk.injEq, true_and]
    omega

/-- The coordinate list: a single pair is rejected with a fatal error, any
other number of pairs gives one vertex per pair, in the given order, with
z = 0. -/
theorem profile_from_coords_eq (answers : List (ℚ × ℚ)) :
    profile_from_coords answers =
      if answers.length = 1 then Except.error (Failure.fatal Msg.coordinates_required)
      else Except.ok (answers.map (fun xy => (⟨xy.1, xy.2, 0⟩ : Pnt))) := by
  unfold profile_from_coords
  rw [coords_loop_eq]
  by_cases h : answers.length = 1
  · simp [h]
  · have h2 : ¬ (0 + 2 * answers.length = 2) := by omega
    simp [h, h2]

theorem read_all_loop_eq (Pro : List Feature) (Profil : LinePnts) (c : Nat)
    (hpos : ∀ f ∈ Pro, 0 < f.type) :
    read_all_loop Pro Profil c =
      ((Pro.getLast?.map Feature.points).getD Profil,
        c + (Pro.filter fun f => decide (f.type &&& GV_LINE ≠ 0)).length) := by
  induction Pro generalizing Profil c with
  | nil => simp [read_all_loop]
  | cons f rest ih =>
    have hf : f.type > 0 := hpos f (List.mem_cons_self f rest)
    have hrest : ∀ g ∈ rest, 0 < g.type := fun g hg => hpos g (List.mem_cons_of_mem f hg)
    rw [read_all_loop, if_pos hf, ih _ _ hrest]
    refine Prod.ext ?_ ?_
    · cases rest with
      | nil => simp
      | cons g more =>
        simp only [List.getLast?_cons_cons]
        rw [List.getLast?_eq_getLast (g :: more) (List.cons_ne_nil g more)]
        simp
    · by_cases hl : f.type &&& GV_LINE ≠ 0
      · rw [if_pos hl, List.filter_cons_of_pos (by simpa using hl), List.length_cons]
        simp only
        omega
      · rw [if_neg hl, List.filter_cons_of_neg (by simpa using hl)]

/-- Without a WHERE clause the profiling line is the geometry of the feature
stored last in the profile map, whatever its type, when the map holds at most
one line feature. -/
theorem profile_from_map_last (before : List Feature) (last : Feature)
    (hpos : ∀ f ∈ before ++ [last], 0 < f.type)
    (hone : ((before ++ [last]).filter fun f => decide (f.type &&& GV_LINE ≠ 0)).length ≤ 1) :
    profile_from_map (before ++ [last]) = Except.ok last.points := by
  unfold profile_from_map
  rw [read_all_loop_eq _ _ _ hpos]
  have h : ¬ (0 + ((before ++ [last]).filter
      fun f => decide (f.type &&& GV_LINE ≠ 0)).length > 1) := by omega
  simp only [h, if_false]
  simp

/-- C11. A profile map without a line feature is not rejected: with a map
that holds one point feature the polyline handed to the corridor construction
has one vertex, and with a map that holds no feature it has none. -/
theorem map_without_line_reaches_buffer (line_buffer : LinePnts → ℚ → ℚ → LinePnts)
    (bufsize : ℚ) :
    profile_corridor line_buffer
        (ProfileInput.map [⟨GV_POINT, [⟨1, 1, 0⟩], [(1, 5)]⟩]) bufsize =
        Except.ok ([⟨1, 1, 0⟩], line_buffer [⟨1, 1, 0⟩] bufsize (1 - bufsize * (-1))) ∧
      profile_corridor line_buffer (ProfileInput.map []) bufsize =
        Except.ok ([], line_buffer [] bufsize (1 - bufsize * (-1))) := by
  constructor
  · simp [profile_corridor, get_profile, profile_from_map, read_all_loop, build_buffer,
      GV_POINT, GV_LINE]
  · simp [profile_corridor, get_profile, profile_from_map, read_all_loop, build_buffer]

/-- C12. A profile map with one line feature, from (0, 0) to (10, 0), and one
point feature at (1, 1): with the point stored after the line the profiling
line is the vertex of the point, with the point stored before the line it is
the line. -/
theorem feature_after_line_replaces_profile :
    profile_from_map
        [⟨GV_LINE, profile_0_10, [(1, 6)]⟩, ⟨GV_POINT, [⟨1, 1, 0⟩], [(1, 5)]⟩] =
        Except.ok [⟨1, 1, 0⟩] ∧
      profile_from_map
        [⟨GV_POINT, [⟨1, 1, 0⟩], [(1, 5)]⟩, ⟨GV_LINE, profile_0_10, [(1, 6)]⟩] =
        Except.ok profile_0_10 := by
  constructor
  · simp [profile_from_map, read_all_loop, GV_POINT, GV_LINE]
  · simp [profile_from_map, read_all_loop, GV_POINT, GV_LINE]

/-- C13. The record stored by `add_point` holds the category of layer 1,
whatever layer the run selected, and the query of the output loop looks that
value up in the table of the selected layer. With layer 2 selected and a
feature of category 7 in layer 1 and 40 in layer 2, the record holds 7 and the
row asked from the table of layer 2 is the one with key 7, not 40. -/
theorem record_category_is_layer_one (L : VectLib) (Cats : LineCats) (dist z : ℚ)
    (resultset : List Result) (open3d dp : Int) (fi : FieldInfo) (ncols : Nat)
    (select : String → String → Int → Option Cursor) (r : Result) :
    (add_point L Cats dist z resultset open3d).getLast?.map Result.cat =
        some (L.cat_get Cats 1) ∧
      print_results open3d dp (some fi) ncols select [r] =
        [print_record open3d dp (some fi) ncols
          (select (join_query fi r).1 (join_query fi r).2.1 (join_query fi r).2.2) 0 r] ∧
      get_field [⟨1, "t1", "cat"⟩, ⟨2, "t2", "id"⟩] 2 = some ⟨2, "t2", "id"⟩ ∧
      spec_cat_get [(1, 7), (2, 40)] 2 = 40 ∧
      add_point spec_lib [(1, 7), (2, 40)] 5 0 [] WITHOUT_Z = [⟨5, 7, none⟩] ∧
      join_query ⟨2, "t2", "id"⟩ ⟨5, 7, none⟩ = ("t2", "id", 7) := by
  refine ⟨?_, ?_, ?_, ?_, ?_, ?_⟩
  · simp [add_point]
  · simp [print_results, join_query, List.enum]
  · decide
  · decide
  · simp [add_point, spec_lib, spec_cat_get, WITH_Z, WITHOUT_Z]
  · rfl

end VProfile
